import Mathlib

/-!
# Verification of the `stock-news` GDELT client (`src/main.py`)

Shallow embedding of the program's pure logic in Lean 4.

Modelling conventions:
* Python strings are Lean `String`s (both are sequences of Unicode code
  points, and `len`/`String.length` both count code points).
* `str.strip()` is `pyStrip`, with Python's whitespace set (`str.isspace`)
  encoded in `pyIsSpace`.
* `str.join` is `pyJoin`, `str.split(",")` is `pySplitComma`,
  Python slicing `text[:500]` is `pyTake text 500`, and the substring
  test `" " in t` (a single-character needle) is `t.data.contains ' '`.
* Python `x or y` on optional strings (falsy = `None` or `""`) is `pyOr`;
  with a string default it is `pyOrDefault`.
* Raised exceptions become `Except` errors.  The error taxonomy of the
  program (`ValueError` for invalid input, `requests.HTTPError` from
  `raise_for_status`, `RuntimeError` for a JSON parse failure) is the
  inductive `FetchError`.
* The single HTTP exchange is split into the pure request construction
  (`fetch_request`, the parameters that would be sent) and the pure
  response processing (`process_response`); `fetch_articles` composes
  them, taking the HTTP response as an explicit argument.  The current
  UTC time is passed as an explicit epoch-seconds argument, and
  `strftime("%Y%m%d%H%M%S")` on a UTC datetime is modelled by
  `strftimeYmdHMS` using the standard civil-from-days calendar algorithm.
* `print` calls are collected into a `List String` of printed messages
  (each element is one argument to `print`, implicitly newline-terminated).
-/

/-- Python `str.isspace` for a single code point: the characters stripped
by `str.strip()`. -/
def pyIsSpace (c : Char) : Bool :=
  let n := c.toNat
  n == 9 || n == 10 || n == 11 || n == 12 || n == 13 ||
  n == 28 || n == 29 || n == 30 || n == 31 || n == 32 ||
  n == 133 || n == 160 || n == 0x1680 ||
  (0x2000 ≤ n && n ≤ 0x200a) ||
  n == 0x2028 || n == 0x2029 || n == 0x202f || n == 0x205f || n == 0x3000

/-- Remove leading and trailing whitespace from a character list. -/
def trimList (l : List Char) : List Char :=
  ((l.dropWhile pyIsSpace).reverse.dropWhile pyIsSpace).reverse

/-- Python `str.strip()`: remove leading and trailing whitespace. -/
def pyStrip (s : String) : String :=
  String.mk (trimList s.data)

/-- Python `sep.join(parts)`. -/
def pyJoin (sep : String) : List String → String
  | [] => ""
  | [x] => x
  | x :: y :: rest => x ++ sep ++ pyJoin sep (y :: rest)

/-- Splitting a character list at a separator character; the accumulator
holds the current piece reversed. -/
def splitOnCharAux (sep : Char) : List Char → List Char → List String
  | [], acc => [String.mk acc.reverse]
  | c :: rest, acc =>
    if c == sep then String.mk acc.reverse :: splitOnCharAux sep rest []
    else splitOnCharAux sep rest (c :: acc)

/-- Python `s.split(",")` (the only split the program performs). -/
def pySplitComma (s : String) : List String :=
  splitOnCharAux ',' s.data []

/-- Python slicing `s[:n]` for `n ≥ 0`. -/
def pyTake (s : String) (n : Nat) : String :=
  String.mk (s.data.take n)

/-- Python `x or y` where `x`, `y` are `str | None` and falsy means
`None` or the empty string. -/
def pyOr (x y : Option String) : Option String :=
  match x with
  | some s => if s = "" then y else some s
  | none => y

/-- Python `x or d` where `x` is `str | None` and `d` a string default. -/
def pyOrDefault (x : Option String) (d : String) : String :=
  match x with
  | some s => if s = "" then d else s
  | none => d

/-- `GDELT_URL` from `src/main.py`. -/
def GDELT_URL : String := "https://api.gdeltproject.org/api/v2/doc/doc"

/-- `MAX_RECORDS` from `src/main.py`. -/
def MAX_RECORDS : Int := 250

/-- `MIN_KEYWORD_LEN` from `src/main.py`. -/
def MIN_KEYWORD_LEN : Nat := 3

/-- `EXAMPLE_COMMANDS` from `src/main.py`. -/
def EXAMPLE_COMMANDS : List String :=
  ["MSFT -k \"guidance, investigation\" -d 5 -l 40",
   "\"NVIDIA\" -k \"ai, chips, guidance\"",
   "AAPL -k \"earnings, outlook\" -d 2",
   "\"Tesla\" --allow-non-english -l 15",
   "\"Bank of America\" -k \"downgrade, investigation\" -d 10 -l 40",
   "\"Meta\" -k \"privacy, regulation\" -d 7"]

/-- `_normalize_term` from `src/main.py`: strip the term; empty becomes
`""`, a term containing a space character is wrapped in double quotes,
anything else is returned bare. -/
def normalize_term (term : String) : String :=
  let t := pyStrip term
  if t = "" then ""
  else if t.data.contains ' ' then "\"" ++ t ++ "\""
  else t

/-- The inner loop body of `normalize_keywords`, over the flattened list
of comma-separated parts: strip each part, drop empties, send parts
shorter than `MIN_KEYWORD_LEN` to `skipped` and the rest to `usable`. -/
def processParts : List String → List String × List String
  | [] => ([], [])
  | part :: rest =>
    let kw := pyStrip part
    let r := processParts rest
    if kw = "" then r
    else if kw.length < MIN_KEYWORD_LEN then (r.1, kw :: r.2)
    else (kw :: r.1, r.2)

/-- `normalize_keywords` from `src/main.py`.  `raw_keywords` is
`Sequence[str] | None`; returns `(usable, skipped)`. -/
def normalize_keywords (raw_keywords : Option (List String)) :
    List String × List String :=
  match raw_keywords with
  | none => ([], [])
  | some raws => processParts (List.flatten (raws.map (fun item => pySplitComma item)))

/-- `build_query` from `src/main.py`.  Raising `ValueError` is modelled
by `Except.error` carrying the exception message. -/
def build_query (symbol : String) (keywords : Option (List String))
    (english_only : Bool) : Except String String :=
  let s := pyStrip symbol
  if s = "" then
    Except.error "A stock symbol or company name is required."
  else
    let base := "(\"" ++ s ++ "\" OR " ++ s ++ ")"
    let kwParts : List String :=
      match keywords with
      | none => []
      | some ks =>
        match (ks.map normalize_term).filter (fun k => k ≠ "") with
        | [] => []
        | [k] => [k]
        | more => ["(" ++ pyJoin " OR " more ++ ")"]
    let langParts : List String := if english_only then ["sourcelang:english"] else []
    Except.ok (pyJoin " AND " (base :: (kwParts ++ langParts)))

/-- The symbol clause of the query as the specification describes it. -/
def specSymbolClause (s : String) : String :=
  "(\"" ++ s ++ "\" OR " ++ s ++ ")"

/-- A rendered keyword term as the specification describes it: a keyword
containing a space character is wrapped in double quotes, others are
left bare. -/
def specRenderKeyword (t : String) : String :=
  if t.data.contains ' ' then "\"" ++ t ++ "\"" else t

/-- The rendered keyword terms of the query as the specification
describes them: keywords trimmed, empties dropped, each rendered by
`specRenderKeyword`. -/
def specKeywordTerms (ks : List String) : List String :=
  ((ks.map pyStrip).filter (fun k => k ≠ "")).map specRenderKeyword

/-- Terms joined with ` OR `, as the specification describes. -/
def specJoinOr : List String → String
  | [] => ""
  | [k] => k
  | k :: rest => k ++ " OR " ++ specJoinOr rest

/-- The keyword clause as the specification describes it: a single term
is rendered without surrounding group parentheses, two or more are
OR-joined inside parentheses. -/
def specKeywordClause : List String → String
  | [t] => t
  | ts => "(" ++ specJoinOr ts ++ ")"

/-- Error taxonomy of the program: `ValueError` (invalid input),
`requests.HTTPError` from `raise_for_status` (network error),
`RuntimeError` (parse error), each carrying the exception's message. -/
inductive FetchError where
  | invalidInput (msg : String)
  | networkError (msg : String)
  | parseError (msg : String)
  deriving DecidableEq, Repr

/-- Python `str(exc)`: the message an exception prints as. -/
def FetchError.message : FetchError → String
  | .invalidInput m => m
  | .networkError m => m
  | .parseError m => m

/-- One entry of the parsed JSON `articles` list: the fields the program
reads with `.get`, each `none` when absent from the JSON object. -/
structure RawArticle where
  title : Option String := none
  url : Option String := none
  seendate : Option String := none
  sourceCommonName : Option String := none
  sourcecountry : Option String := none
  language : Option String := none
  domain : Option String := none
  deriving DecidableEq, Repr

/-- The parsed JSON body: the program only reads `data.get("articles", [])`. -/
structure GdeltData where
  articles : Option (List RawArticle) := none
  deriving DecidableEq, Repr

/-- The HTTP response, as observed by the program: status code, the
`reason` phrase, the raw body `text`, and the body's JSON parse result
(`none` when `response.json()` raises `ValueError`). -/
structure HttpResponse where
  status_code : Nat
  reason : String := ""
  text : String := ""
  json : Option GdeltData := none
  deriving Repr

/-- The normalized article record built by `fetch_articles`. -/
structure Article where
  title : Option String := none
  url : Option String := none
  seendate : Option String := none
  source : Option String := none
  language : Option String := none
  domain : Option String := none
  deriving DecidableEq, Repr

/-- The `params` dict sent with the GET request: `startdatetime = none`
models the key being absent. -/
structure FetchRequest where
  query : String
  mode : String
  format : String
  maxrecords : Int
  sort : String
  startdatetime : Option String
  deriving DecidableEq, Repr

/-- Civil date (year, month, day) from a count of days since 1970-01-01,
proleptic Gregorian (Howard Hinnant's algorithm); models the calendar
arithmetic of Python's `datetime` in UTC. -/
def civilFromDays (z : Int) : Int × Nat × Nat :=
  let zz := z + 719468
  let era := Int.fdiv zz 146097
  let doe := (zz - era * 146097).toNat
  let yoe := (doe - doe / 1460 + doe / 36524 - doe / 146096) / 365
  let doy := doe - (365 * yoe + yoe / 4 - yoe / 100)
  let mp := (5 * doy + 2) / 153
  let d := doy - (153 * mp + 2) / 5 + 1
  let m := if mp < 10 then mp + 3 else mp - 9
  (era * 400 + yoe + (if m ≤ 2 then 1 else 0), m, d)

/-- Zero-pad a number below 100 to two digits. -/
def pad2 (n : Nat) : String :=
  if n < 10 then "0" ++ toString n else toString n

/-- `dt.strftime("%Y%m%d%H%M%S")` for the UTC datetime at `secs` seconds
since the epoch. -/
def strftimeYmdHMS (secs : Int) : String :=
  let days := Int.fdiv secs 86400
  let sod := (secs - days * 86400).toNat
  let c := civilFromDays days
  toString c.1 ++ pad2 c.2.1 ++ pad2 c.2.2 ++
    pad2 (sod / 3600) ++ pad2 (sod % 3600 / 60) ++ pad2 (sod % 60)

/-- Modelled from the `requests` library: the message of the `HTTPError`
raised by `raise_for_status` on a 4xx/5xx status. -/
def httpErrorMessage (r : HttpResponse) : String :=
  if r.status_code < 500 then
    toString r.status_code ++ " Client Error: " ++ r.reason ++ " for url: " ++ GDELT_URL
  else
    toString r.status_code ++ " Server Error: " ++ r.reason ++ " for url: " ++ GDELT_URL

/-- The request-construction phase of `fetch_articles` (`src/main.py`
lines 96-112): clamp `limit` and `days`, build the query, and assemble
the `params` dict.  An error here means no network request is made. -/
def fetch_request (symbol : String) (keywords : Option (List String))
    (days limit : Int) (english_only : Bool) (now : Int) :
    Except FetchError FetchRequest :=
  let limit := max 1 (min limit MAX_RECORDS)
  let days := max 0 days
  match build_query symbol keywords english_only with
  | Except.error msg => Except.error (FetchError.invalidInput msg)
  | Except.ok query =>
    Except.ok
      { query := query, mode := "ArtList", format := "json",
        maxrecords := limit, sort := "datedesc",
        startdatetime :=
          if 0 < days then some (strftimeYmdHMS (now - 86400 * days)) else none }

/-- The per-article mapping of `fetch_articles` (`src/main.py` lines
127-136). -/
def mkResult (a : RawArticle) : Article :=
  { title := a.title, url := a.url, seendate := a.seendate,
    source := pyOr a.sourceCommonName a.sourcecountry,
    language := a.language, domain := a.domain }

/-- The response-processing phase of `fetch_articles` (`src/main.py`
lines 115-137): `raise_for_status`, JSON parsing, article extraction. -/
def process_response (r : HttpResponse) : Except FetchError (List Article) :=
  if 400 ≤ r.status_code then
    Except.error (FetchError.networkError (httpErrorMessage r))
  else
    match r.json with
    | none =>
      Except.error (FetchError.parseError
        ("Unexpected response (status " ++ toString r.status_code ++ "): " ++
          pyTake r.text 500))
    | some data =>
      Except.ok ((data.articles.getD []).map mkResult)

/-- `fetch_articles` from `src/main.py`, with the current UTC time (epoch
seconds) and the HTTP response as explicit arguments. -/
def fetch_articles (symbol : String) (keywords : Option (List String))
    (days limit : Int) (english_only : Bool) (now : Int) (r : HttpResponse) :
    Except FetchError (List Article) :=
  match fetch_request symbol keywords days limit english_only now with
  | Except.error e => Except.error e
  | Except.ok _ => process_response r

/-- The numbered blocks printed by `print_articles` for a non-empty list
(three `print` calls per article, 1-based numbering). -/
def printBlocks : Nat → List Article → List String
  | _, [] => []
  | idx, a :: rest =>
    ("[" ++ toString idx ++ "] " ++ pyOrDefault a.title "No title") ::
    ("    Source: " ++ pyOrDefault a.source "unknown source" ++
      " | Date: " ++ pyOrDefault a.seendate "unknown date" ++
      " | Lang: " ++ pyOrDefault a.language "?") ::
    ("    URL: " ++ pyOrDefault a.url "unknown URL" ++ "\n") ::
    printBlocks (idx + 1) rest

/-- `print_articles` from `src/main.py`, as the list of printed messages. -/
def print_articles (articles : List Article) : List String :=
  match articles with
  | [] => ["No articles found."]
  | _ => printBlocks 1 articles

/-- The values argparse hands to `main` (argparse itself is external). -/
structure ParsedArgs where
  symbol : String
  keywords : Option (List String) := none
  days : Int := 3
  limit : Int := 25
  allow_non_english : Bool := false
  deriving Repr

/-- The observable outcome of `main`: printed messages, the returned exit
status, and whether a network request was issued. -/
structure MainOutcome where
  output : List String
  exitCode : Int
  networkAttempted : Bool
  deriving DecidableEq, Repr

/-- The usage text printed by `main` when invoked with no arguments. -/
def usageOutput : List String :=
  "Try one of these commands:" ::
  EXAMPLE_COMMANDS.map (fun e => "  python main.py " ++ e) ++
  ["\nUse -h/--help for full options."]

/-- The warning printed for skipped short keywords. -/
def skippedMessage (skipped : List String) : String :=
  "Skipping short keywords (<" ++ toString MIN_KEYWORD_LEN ++ " chars): " ++
    pyJoin ", " skipped

/-- Whether a network request is issued on the non-empty-argv path: true
exactly when request construction succeeds. -/
def requestSent (args : ParsedArgs) (now : Int) : Bool :=
  match fetch_request args.symbol (some (normalize_keywords args.keywords).1)
      args.days args.limit (!args.allow_non_english) now with
  | Except.ok _ => true
  | Except.error _ => false

/-- `main` from `src/main.py` on an already-parsed argument record: the
empty-argv branch, keyword normalization with its warning, the fetch, the
`except` clause printing `Error: <message>` with exit status 1, and the
success path printing the articles with exit status 0. -/
def main_run (argv : List String) (args : ParsedArgs) (now : Int)
    (r : HttpResponse) : MainOutcome :=
  if argv = [] then
    { output := usageOutput, exitCode := 1, networkAttempted := false }
  else
    let kws := normalize_keywords args.keywords
    let skipOut : List String := if kws.2 = [] then [] else [skippedMessage kws.2]
    match fetch_articles args.symbol (some kws.1) args.days args.limit
        (!args.allow_non_english) now r with
    | Except.error e =>
      { output := skipOut ++ ["Error: " ++ e.message], exitCode := 1,
        networkAttempted := requestSent args now }
    | Except.ok articles =>
      { output := skipOut ++ print_articles articles, exitCode := 0,
        networkAttempted := true }

example : strftimeYmdHMS 0 = "19700101000000" := by rfl

example : strftimeYmdHMS 1700000000 = "20231114221320" := by rfl

example : strftimeYmdHMS (1700000000 - 86400 * 5) = "20231109221320" := by rfl

example :
    fetch_request "MSFT" (some []) 3 9999 true 1700000000 =
      Except.ok
        { query := "(\"MSFT\" OR MSFT) AND sourcelang:english",
          mode := "ArtList", format := "json", maxrecords := 250,
          sort := "datedesc", startdatetime := some "20231111221320" } := by rfl

example : build_query "S" (some ["interest rate"]) true =
    Except.ok "(\"S\" OR S) AND \"interest rate\" AND sourcelang:english" := by rfl

example : build_query " " none true =
    Except.error "A stock symbol or company name is required." := by rfl

example : build_query "S" (some ["chips", "ai "]) false =
    Except.ok "(\"S\" OR S) AND (chips OR ai)" := by rfl

example : normalize_keywords (some ["ab, abc, de,  ,xyz"]) =
    (["abc", "xyz"], ["ab", "de"]) := by rfl

/-! ## Helper lemmas -/

theorem dropWhile_idem (p : Char → Bool) (l : List Char) :
    (l.dropWhile p).dropWhile p = l.dropWhile p := by
  induction l with
  | nil => rfl
  | cons c t ih => by_cases h : p c <;> simp [List.dropWhile_cons, h, ih]

theorem head_dropWhile_false (p : Char → Bool) (l : List Char) (c : Char)
    (h : (l.dropWhile p).head? = some c) : p c = false := by
  have hh := List.head?_dropWhile_not p l
  rw [h] at hh
  exact hh

theorem dropWhile_eq_self_of_head (p : Char → Bool) (l : List Char)
    (h : ∀ c, l.head? = some c → p c = false) : l.dropWhile p = l := by
  cases l with
  | nil => rfl
  | cons c t => simp [List.dropWhile_cons, h c rfl]

theorem trimList_idem (l : List Char) : trimList (trimList l) = trimList l := by
  have hA : (trimList l).dropWhile pyIsSpace = trimList l := by
    apply dropWhile_eq_self_of_head
    intro c hc
    unfold trimList at hc
    rw [List.head?_reverse] at hc
    obtain ⟨t, ht⟩ :=
      List.dropWhile_suffix (l := (l.dropWhile pyIsSpace).reverse) pyIsSpace
    have h2 : (l.dropWhile pyIsSpace).reverse.getLast? = some c := by
      rw [← ht, List.getLast?_append, hc]
      rfl
    rw [List.getLast?_reverse] at h2
    exact head_dropWhile_false pyIsSpace l c h2
  have hB : (trimList l).reverse.dropWhile pyIsSpace = (trimList l).reverse := by
    unfold trimList
    rw [List.reverse_reverse]
    exact dropWhile_idem pyIsSpace _
  have hdef : trimList (trimList l) =
      (((trimList l).dropWhile pyIsSpace).reverse.dropWhile pyIsSpace).reverse := rfl
  rw [hdef, hA, hB, List.reverse_reverse]

theorem pyStrip_idem (s : String) : pyStrip (pyStrip s) = pyStrip s :=
  congrArg String.mk (trimList_idem s.data)

theorem pyStrip_eq_empty_of_all (s : String)
    (h : ∀ c ∈ s.data, pyIsSpace c = true) : pyStrip s = "" := by
  have h1 : s.data.dropWhile pyIsSpace = [] := by
    rw [List.dropWhile_eq_nil_iff]
    exact h
  unfold pyStrip trimList
  rw [h1]
  rfl

theorem normalize_term_eq (k : String) :
    normalize_term k =
      if pyStrip k = "" then "" else specRenderKeyword (pyStrip k) := rfl

theorem string_append_ne_empty (a : String) (b : String) (h : a ≠ "") :
    a ++ b ≠ "" := by
  intro hab
  apply h
  have hd := congrArg String.data hab
  rw [String.data_append] at hd
  have ha : a.data = [] := (List.append_eq_nil.mp hd).1
  cases a with
  | mk d =>
    have hd2 : d = [] := ha
    rw [hd2]

theorem specRenderKeyword_ne_empty (t : String) (h : t ≠ "") :
    specRenderKeyword t ≠ "" := by
  unfold specRenderKeyword
  split
  · exact string_append_ne_empty ("\"" ++ t) "\""
      (string_append_ne_empty "\"" t (by decide))
  · exact h

theorem keywordTerms_eq (ks : List String) :
    (ks.map normalize_term).filter (fun k => k ≠ "") = specKeywordTerms ks := by
  induction ks with
  | nil => rfl
  | cons k t ih =>
    unfold specKeywordTerms at ih ⊢
    simp only [List.map_cons, List.filter_cons]
    simp only [ne_eq, decide_not] at ih
    by_cases h : pyStrip k = ""
    · have h1 : normalize_term k = "" := by rw [normalize_term_eq, if_pos h]
      simp [h1, h, ih]
    · have h1 : normalize_term k = specRenderKeyword (pyStrip k) := by
        rw [normalize_term_eq, if_neg h]
      simp [h1, h, specRenderKeyword_ne_empty (pyStrip k) h, ih]

theorem processParts_eq (parts : List String) :
    processParts parts =
      (((parts.map pyStrip).filter (fun k => k ≠ "")).filter
          (fun k => decide (MIN_KEYWORD_LEN ≤ k.length)),
        ((parts.map pyStrip).filter (fun k => k ≠ "")).filter
          (fun k => decide (k.length < MIN_KEYWORD_LEN))) := by
  induction parts with
  | nil => rfl
  | cons x t ih =>
    simp only [processParts, List.map_cons, List.filter_cons]
    by_cases h1 : pyStrip x = ""
    · simp [h1, ih]
    · by_cases h2 : (pyStrip x).length < MIN_KEYWORD_LEN
      · simp [h1, h2, Nat.not_le.mpr h2, ih]
      · simp [h1, h2, Nat.le_of_not_lt h2, ih]

theorem specJoinOr_eq (l : List String) : specJoinOr l = pyJoin " OR " l := by
  induction l with
  | nil => rfl
  | cons x t ih =>
    cases t with
    | nil => rfl
    | cons y r =>
      show x ++ " OR " ++ specJoinOr (y :: r) = x ++ " OR " ++ pyJoin " OR " (y :: r)
      rw [ih]

theorem cleaned_fixed (ks : List String) :
    (((ks.map pyStrip).filter (fun k => k ≠ "")).map pyStrip).filter
        (fun k => k ≠ "") =
      (ks.map pyStrip).filter (fun k => k ≠ "") := by
  induction ks with
  | nil => rfl
  | cons k t ih =>
    simp only [List.map_cons, List.filter_cons]
    simp only [ne_eq, decide_not] at ih
    by_cases h : pyStrip k = ""
    · simp [h, ih]
    · simp [h, pyStrip_idem, ih]

theorem specKeywordTerms_cleaned (ks : List String) :
    specKeywordTerms ((ks.map pyStrip).filter (fun k => k ≠ "")) =
      specKeywordTerms ks := by
  unfold specKeywordTerms
  rw [cleaned_fixed]

theorem specKeywordTerms_nil_of_all_empty (ks : List String)
    (h : ∀ k ∈ ks, pyStrip k = "") : specKeywordTerms ks = [] := by
  unfold specKeywordTerms
  have h1 : (ks.map pyStrip).filter (fun k => k ≠ "") = [] := by
    rw [List.filter_eq_nil_iff]
    intro a ha
    obtain ⟨k, hk, rfl⟩ := List.mem_map.mp ha
    simp [h k hk]
  rw [h1]
  rfl

theorem build_query_ok (symbol : String) (keywords : Option (List String))
    (eo : Bool) (h : pyStrip symbol ≠ "") :
    ∃ q, build_query symbol keywords eo = Except.ok q := by
  simp [build_query, h]

theorem fetch_articles_eq_process (symbol : String)
    (keywords : Option (List String)) (days limit : Int) (eo : Bool)
    (now : Int) (r : HttpResponse) (h : pyStrip symbol ≠ "") :
    fetch_articles symbol keywords days limit eo now r = process_response r := by
  obtain ⟨q, hq⟩ := build_query_ok symbol keywords eo h
  simp [fetch_articles, fetch_request, hq]

theorem clamp_eval (limit : Int) :
    max 1 (min limit MAX_RECORDS) =
      (if limit ≤ 0 then 1 else if 250 < limit then 250 else limit) := by
  unfold MAX_RECORDS
  simp only [max_def, min_def]
  split_ifs <;> omega

/-! ## Claim theorems -/

/-- C2: for every symbol that is empty or consists only of whitespace
(and any keywords, flag, days, limit, time, response), `build_query`
fails with the InvalidInput error, and `fetch_articles` fails with that
same error; moreover `fetch_request` — the construction of the
parameters that would be sent over the network — already fails, so the
failure happens before any network request is performed. -/
theorem empty_symbol_invalid_input (symbol : String)
    (h : ∀ c ∈ symbol.data, pyIsSpace c = true)
    (keywords : Option (List String)) (english_only : Bool)
    (days limit now : Int) (r : HttpResponse) :
    build_query symbol keywords english_only =
      Except.error "A stock symbol or company name is required." ∧
    fetch_request symbol keywords days limit english_only now =
      Except.error
        (FetchError.invalidInput "A stock symbol or company name is required.") ∧
    fetch_articles symbol keywords days limit english_only now r =
      Except.error
        (FetchError.invalidInput "A stock symbol or company name is required.") := by
  have hs : pyStrip symbol = "" := pyStrip_eq_empty_of_all symbol h
  have h1 : build_query symbol keywords english_only =
      Except.error "A stock symbol or company name is required." := by
    simp [build_query, hs]
  refine ⟨h1, ?_, ?_⟩
  · simp [fetch_request, h1]
  · simp [fetch_articles, fetch_request, h1]

/-- Witness for C2 at the whitespace-only symbol `"  \t "`. -/
theorem empty_symbol_invalid_input_witness :
    (∀ c ∈ ("  \t ").data, pyIsSpace c = true) ∧
    build_query "  \t " none true =
      Except.error "A stock symbol or company name is required." ∧
    fetch_articles "  \t " none 3 25 true 0 { status_code := 200 } =
      Except.error
        (FetchError.invalidInput "A stock symbol or company name is required.") :=
  ⟨by decide,
    (empty_symbol_invalid_input "  \t " (by decide) none true 3 25 0
      { status_code := 200 }).1,
    (empty_symbol_invalid_input "  \t " (by decide) none true 3 25 0
      { status_code := 200 }).2.2⟩

/-- C3: `normalize_keywords` splits each entry on commas, trims each
piece, drops empty pieces, and partitions the remaining pieces by length
into `usable` (length ≥ `MIN_KEYWORD_LEN` = 3) and `skipped` (length 1
or 2); both components are filters of the same ordered piece list, so
input order is preserved, and the function is total (never raises).  The
second conjunct is the concrete example from the specification. -/
theorem normalize_keywords_partition :
    (∀ raws : List String,
      normalize_keywords (some raws) =
        ((((raws.map pySplitComma).flatten.map pyStrip).filter
              (fun k => k ≠ "")).filter
            (fun k => decide (MIN_KEYWORD_LEN ≤ k.length)),
          (((raws.map pySplitComma).flatten.map pyStrip).filter
              (fun k => k ≠ "")).filter
            (fun k => decide (k.length < MIN_KEYWORD_LEN)))) ∧
    normalize_keywords (some ["ab, abc, de,  ,xyz"]) =
      (["abc", "xyz"], ["ab", "de"]) := by
  constructor
  · intro raws
    exact processParts_eq _
  · rfl

/-- C10: `build_query` itself trims each keyword and silently drops
keywords that are empty or whitespace-only — the query built from `ks`
equals the query built from the trimmed, empty-dropped keywords — and if
every keyword trims to empty the whole keyword clause (with its `AND`
connective) is omitted, exactly as when no keywords are passed. -/
theorem build_query_trims_and_drops (symbol : String) (ks : List String)
    (eo : Bool) :
    build_query symbol (some ks) eo =
      build_query symbol (some ((ks.map pyStrip).filter (fun k => k ≠ ""))) eo ∧
    ((∀ k ∈ ks, pyStrip k = "") →
      build_query symbol (some ks) eo = build_query symbol none eo) := by
  constructor
  · by_cases hs : pyStrip symbol = ""
    · simp [build_query, hs]
    · simp only [build_query, keywordTerms_eq, specKeywordTerms_cleaned]
  · intro hall
    by_cases hs : pyStrip symbol = ""
    · simp [build_query, hs]
    · simp only [build_query, keywordTerms_eq,
        specKeywordTerms_nil_of_all_empty ks hall]

/-- Witness for C10: trimming/dropping at a concrete keyword list, and
full omission for an all-whitespace keyword list. -/
theorem build_query_trims_and_drops_witness :
    build_query "NVDA" (some ["  ai  ", " "]) true =
      build_query "NVDA" (some ["ai"]) true ∧
    build_query "NVDA" (some [" ", "  "]) true =
      build_query "NVDA" none true := by
  constructor
  · have h := (build_query_trims_and_drops "NVDA" ["  ai  ", " "] true).1
    have h2 : ((["  ai  ", " "].map pyStrip).filter (fun k => k ≠ "")) = ["ai"] := by
      decide
    rw [h2] at h
    exact h
  · exact (build_query_trims_and_drops "NVDA" [" ", "  "] true).2 (by decide)

theorem paren_and_merge (t : String) :
    (")" : String) ++ (" AND " ++ t) = ") AND " ++ t := by
  rw [← String.append_assoc]
  rfl

/-- C1 counterexample: the claim says every keyword containing whitespace
is wrapped in double quotes, but the code only quotes keywords containing
a space character (U+0020), and it also trims keywords and drops the
all-whitespace ones.  With keywords `["a\tbc", "   "]` (a tab-containing
keyword and a whitespace-only one) the claim predicts the parenthesized
two-term clause `("a\tbc" OR "   ")`, while `build_query` produces the
bare single term `a\tbc`. -/
theorem build_query_whitespace_counterexample :
    build_query "S" (some ["a\tbc", "   "]) false =
      Except.ok "(\"S\" OR S) AND a\tbc" ∧
    build_query "S" (some ["a\tbc", "   "]) false ≠
      Except.ok "(\"S\" OR S) AND (\"a\tbc\" OR \"   \")" ∧
    ("a\tbc".data.any Char.isWhitespace) = true := by
  refine ⟨rfl, ?_, rfl⟩
  intro hcontra
  have h1 : build_query "S" (some ["a\tbc", "   "]) false =
      Except.ok "(\"S\" OR S) AND a\tbc" := rfl
  rw [h1] at hcontra
  exact absurd (Except.ok.inj hcontra) (by decide)

/-- C1 (amended): for every symbol non-empty after trimming, every
keyword sequence and every flag, `build_query` returns the symbol clause
`("SYMBOL" OR SYMBOL)` followed, when at least one keyword is non-empty
after trimming, by ` AND ` and the keyword clause over the trimmed
non-empty keywords (a single keyword rendered without surrounding group
parentheses, two or more joined with ` OR ` inside parentheses, each
keyword containing a space character wrapped in double quotes and
keywords without a space left bare), followed, when `english_only` is
true, by ` AND sourcelang:english`. -/
theorem build_query_renders_clauses (symbol : String) (ks : List String)
    (eo : Bool) (h : pyStrip symbol ≠ "") :
    build_query symbol (some ks) eo =
      Except.ok (specSymbolClause (pyStrip symbol) ++
        (if specKeywordTerms ks = [] then ""
         else " AND " ++ specKeywordClause (specKeywordTerms ks)) ++
        (if eo then " AND sourcelang:english" else "")) := by
  simp only [build_query, keywordTerms_eq]
  rw [if_neg h]
  cases hterms : specKeywordTerms ks with
  | nil =>
    cases eo with
    | false => simp [pyJoin, String.append_empty, specSymbolClause]
    | true =>
      simp [pyJoin, String.append_empty, String.append_assoc, specSymbolClause,
        paren_and_merge]
  | cons t1 rest1 =>
    cases rest1 with
    | nil =>
      cases eo with
      | false =>
        simp [pyJoin, specKeywordClause, String.append_empty, String.append_assoc,
          specSymbolClause, paren_and_merge]
      | true =>
        simp [pyJoin, specKeywordClause, String.append_empty, String.append_assoc,
          specSymbolClause, paren_and_merge]
    | cons t2 rest2 =>
      cases eo with
      | false =>
        simp [pyJoin, specKeywordClause, specJoinOr_eq, String.append_empty,
          String.append_assoc, specSymbolClause, paren_and_merge]
      | true =>
        simp [pyJoin, specKeywordClause, specJoinOr_eq, String.append_empty,
          String.append_assoc, specSymbolClause, paren_and_merge]

/-- Witness for C1 at a concrete symbol, a quoted phrase keyword, a bare
keyword, and the english-only flag. -/
theorem build_query_renders_clauses_witness :
    pyStrip "AAPL" ≠ "" ∧
    build_query "AAPL" (some ["ai chips", "guidance"]) true =
      Except.ok
        "(\"AAPL\" OR AAPL) AND (\"ai chips\" OR guidance) AND sourcelang:english" ∧
    build_query "AAPL" (some []) true =
      Except.ok "(\"AAPL\" OR AAPL) AND sourcelang:english" :=
  ⟨by decide,
    (build_query_renders_clauses "AAPL" ["ai chips", "guidance"] true
      (by decide)).trans (congrArg Except.ok (by decide)),
    (build_query_renders_clauses "AAPL" [] true (by decide)).trans
      (congrArg Except.ok (by decide))⟩

theorem fetch_request_fields (symbol : String) (keywords : Option (List String))
    (days limit : Int) (eo : Bool) (now : Int) (req : FetchRequest)
    (h : fetch_request symbol keywords days limit eo now = Except.ok req) :
    req.maxrecords = max 1 (min limit MAX_RECORDS) ∧
    req.startdatetime =
      (if 0 < max 0 days then some (strftimeYmdHMS (now - 86400 * max 0 days))
       else none) := by
  unfold fetch_request at h
  cases hb : build_query symbol keywords eo with
  | error m => rw [hb] at h; simp at h
  | ok q =>
    rw [hb] at h
    simp only [Except.ok.injEq] at h
    rw [← h]
    exact ⟨rfl, rfl⟩

/-- C4: the `maxrecords` request parameter is the input limit clamped to
[1, 250]: non-positive inputs become 1, inputs above 250 become 250,
inputs already inside the interval are unchanged. -/
theorem fetch_request_clamps_limit (symbol : String)
    (keywords : Option (List String)) (days limit : Int) (eo : Bool)
    (now : Int) (req : FetchRequest)
    (h : fetch_request symbol keywords days limit eo now = Except.ok req) :
    req.maxrecords = max 1 (min limit MAX_RECORDS) ∧
    (limit ≤ 0 → req.maxrecords = 1) ∧
    (250 < limit → req.maxrecords = 250) ∧
    (1 ≤ limit → limit ≤ 250 → req.maxrecords = limit) := by
  have h1 := (fetch_request_fields symbol keywords days limit eo now req h).1
  refine ⟨h1, ?_, ?_, ?_⟩
  · intro hl
    rw [h1, clamp_eval, if_pos hl]
  · intro hl
    rw [h1, clamp_eval, if_neg (by omega), if_pos hl]
  · intro hl1 hl2
    rw [h1, clamp_eval, if_neg (by omega), if_neg (by omega)]

/-- Witness for C4: limit 9999 is clamped to 250 and limit 0 to 1. -/
theorem fetch_request_clamps_limit_witness :
    fetch_request "MSFT" none 3 9999 true 1700000000 =
      Except.ok
        { query := "(\"MSFT\" OR MSFT) AND sourcelang:english",
          mode := "ArtList", format := "json", maxrecords := 250,
          sort := "datedesc", startdatetime := some "20231111221320" } ∧
    ({ query := "(\"MSFT\" OR MSFT) AND sourcelang:english",
        mode := "ArtList", format := "json", maxrecords := 250,
        sort := "datedesc",
        startdatetime := some "20231111221320" } : FetchRequest).maxrecords = 250 ∧
    fetch_request "MSFT" none 3 0 true 1700000000 =
      Except.ok
        { query := "(\"MSFT\" OR MSFT) AND sourcelang:english",
          mode := "ArtList", format := "json", maxrecords := 1,
          sort := "datedesc", startdatetime := some "20231111221320" } ∧
    ({ query := "(\"MSFT\" OR MSFT) AND sourcelang:english",
        mode := "ArtList", format := "json", maxrecords := 1,
        sort := "datedesc",
        startdatetime := some "20231111221320" } : FetchRequest).maxrecords = 1 := by
  refine ⟨rfl, ?_, rfl, ?_⟩
  · exact (fetch_request_clamps_limit "MSFT" none 3 9999 true 1700000000 _
      rfl).2.2.1 (by decide)
  · exact (fetch_request_clamps_limit "MSFT" none 3 0 true 1700000000 _
      rfl).2.1 (by decide)

/-- C5: negative `days` are first clamped to 0; when the clamped value is
0 the request carries no `startdatetime` at all, and when it is positive
the request carries `startdatetime` equal to the current UTC time minus
that many days, formatted as YYYYMMDDHHMMSS by `strftimeYmdHMS`. -/
theorem fetch_request_startdatetime (symbol : String)
    (keywords : Option (List String)) (days limit : Int) (eo : Bool)
    (now : Int) (req : FetchRequest)
    (h : fetch_request symbol keywords days limit eo now = Except.ok req) :
    req.startdatetime =
      (if 0 < max 0 days then some (strftimeYmdHMS (now - 86400 * max 0 days))
       else none) ∧
    (days ≤ 0 → req.startdatetime = none) ∧
    (0 < days →
      req.startdatetime = some (strftimeYmdHMS (now - 86400 * days))) := by
  have h1 := (fetch_request_fields symbol keywords days limit eo now req h).2
  refine ⟨h1, ?_, ?_⟩
  · intro hd
    rw [h1, max_eq_left hd, if_neg (lt_irrefl 0)]
  · intro hd
    rw [h1, max_eq_right (le_of_lt hd), if_pos hd]

/-- Witness for C5: `days = 5` yields a `startdatetime` exactly 5 days
before the call time 1700000000 (2023-11-14T22:13:20Z), and `days = 0`
omits it. -/
theorem fetch_request_startdatetime_witness :
    fetch_request "MSFT" none 5 25 true 1700000000 =
      Except.ok
        { query := "(\"MSFT\" OR MSFT) AND sourcelang:english",
          mode := "ArtList", format := "json", maxrecords := 25,
          sort := "datedesc", startdatetime := some "20231109221320" } ∧
    ({ query := "(\"MSFT\" OR MSFT) AND sourcelang:english",
        mode := "ArtList", format := "json", maxrecords := 25,
        sort := "datedesc",
        startdatetime := some "20231109221320" } : FetchRequest).startdatetime =
      some (strftimeYmdHMS (1700000000 - 86400 * 5)) ∧
    strftimeYmdHMS (1700000000 - 86400 * 5) = "20231109221320" ∧
    fetch_request "MSFT" none 0 25 true 1700000000 =
      Except.ok
        { query := "(\"MSFT\" OR MSFT) AND sourcelang:english",
          mode := "ArtList", format := "json", maxrecords := 25,
          sort := "datedesc", startdatetime := none } ∧
    ({ query := "(\"MSFT\" OR MSFT) AND sourcelang:english",
        mode := "ArtList", format := "json", maxrecords := 25,
        sort := "datedesc", startdatetime := none } : FetchRequest).startdatetime =
      none := by
  refine ⟨rfl, ?_, rfl, rfl, ?_⟩
  · exact (fetch_request_startdatetime "MSFT" none 5 25 true 1700000000 _
      rfl).2.2 (by decide)
  · exact (fetch_request_startdatetime "MSFT" none 0 25 true 1700000000 _
      rfl).2.1 (by decide)

/-- C6: for every response with a success status (< 400, so
`raise_for_status` does not raise) whose body fails JSON parsing,
`fetch_articles` fails with a ParseError whose message carries the HTTP
status code and the first 500 characters of the raw body. -/
theorem parse_failure_parse_error (symbol : String)
    (keywords : Option (List String)) (days limit : Int) (eo : Bool)
    (now : Int) (r : HttpResponse) (hsym : pyStrip symbol ≠ "")
    (hok : r.status_code < 400) (hjson : r.json = none) :
    fetch_articles symbol keywords days limit eo now r =
      Except.error (FetchError.parseError
        ("Unexpected response (status " ++ toString r.status_code ++ "): " ++
          pyTake r.text 500)) := by
  rw [fetch_articles_eq_process symbol keywords days limit eo now r hsym]
  unfold process_response
  rw [if_neg (by omega), hjson]

/-- Witness for C6 at status 200 with the unparseable body `"oops"`. -/
theorem parse_failure_parse_error_witness :
    pyStrip "MSFT" ≠ "" ∧ (200 : Nat) < 400 ∧
    fetch_articles "MSFT" none 3 25 true 0
      { status_code := 200, text := "oops", json := none } =
      Except.error
        (FetchError.parseError "Unexpected response (status 200): oops") :=
  ⟨by decide, by decide, by
    have h := parse_failure_parse_error "MSFT" none 3 25 true 0
      { status_code := 200, text := "oops", json := none }
      (by decide) (by decide) rfl
    exact h.trans
      (congrArg Except.error (congrArg FetchError.parseError (by decide)))⟩

/-- C7: a parsed response without an `articles` field yields the empty
result list, and the printer on an empty list prints exactly the single
"No articles found." message and nothing else. -/
theorem absent_articles_empty (symbol : String)
    (keywords : Option (List String)) (days limit : Int) (eo : Bool)
    (now : Int) (r : HttpResponse) (d : GdeltData)
    (hsym : pyStrip symbol ≠ "") (hok : r.status_code < 400)
    (hjson : r.json = some d) (ha : d.articles = none) :
    fetch_articles symbol keywords days limit eo now r = Except.ok [] ∧
    print_articles [] = ["No articles found."] := by
  constructor
  · rw [fetch_articles_eq_process symbol keywords days limit eo now r hsym]
    unfold process_response
    rw [if_neg (by omega), hjson]
    simp [ha]
  · rfl

/-- Witness for C7 at a concrete response whose JSON object has no
`articles` field. -/
theorem absent_articles_empty_witness :
    pyStrip "TSLA" ≠ "" ∧
    fetch_articles "TSLA" none 3 25 true 0
      { status_code := 200, json := some { articles := none } } =
      Except.ok [] ∧
    print_articles [] = ["No articles found."] := by
  have h := absent_articles_empty "TSLA" none 3 25 true 0
    { status_code := 200, json := some { articles := none } }
    { articles := none } (by decide) (by decide) rfl rfl
  exact ⟨by decide, h.1, h.2⟩

/-- C8: every article entry is mapped to a record with fields title, url,
seendate, source, language and domain; a field missing from the entry
(`none`) stays `none` rather than raising, and the source field prefers
`sourceCommonName`, falling back to `sourcecountry` (Python `or`
semantics, where `None` and the empty string both fall through). -/
theorem article_field_mapping (symbol : String)
    (keywords : Option (List String)) (days limit : Int) (eo : Bool)
    (now : Int) (r : HttpResponse) (d : GdeltData) (l : List RawArticle)
    (hsym : pyStrip symbol ≠ "") (hok : r.status_code < 400)
    (hjson : r.json = some d) (ha : d.articles = some l) :
    fetch_articles symbol keywords days limit eo now r =
      Except.ok (l.map mkResult) ∧
    ∀ a : RawArticle,
      (mkResult a).title = a.title ∧ (mkResult a).url = a.url ∧
      (mkResult a).seendate = a.seendate ∧ (mkResult a).language = a.language ∧
      (mkResult a).domain = a.domain ∧
      (mkResult a).source = pyOr a.sourceCommonName a.sourcecountry ∧
      (a.sourceCommonName = none → (mkResult a).source = a.sourcecountry) ∧
      (∀ s, a.sourceCommonName = some s → s ≠ "" →
        (mkResult a).source = some s) := by
  constructor
  · rw [fetch_articles_eq_process symbol keywords days limit eo now r hsym]
    unfold process_response
    rw [if_neg (by omega), hjson]
    simp [ha]
  · intro a
    refine ⟨rfl, rfl, rfl, rfl, rfl, rfl, ?_, ?_⟩
    · intro hn
      simp [mkResult, pyOr, hn]
    · intro s hs hne
      simp [mkResult, pyOr, hs, hne]

/-- Witness for C8 at a partial article record (no title, no
`sourceCommonName`): the mapped record keeps `none` for the missing
fields and falls back to the country code for the source. -/
theorem article_field_mapping_witness :
    pyStrip "MSFT" ≠ "" ∧
    fetch_articles "MSFT" none 3 25 true 0
      { status_code := 200,
        json := some
          { articles := some
              [{ url := some "http://x", sourcecountry := some "US",
                 language := some "en" }] } } =
      Except.ok
        [{ title := none, url := some "http://x", seendate := none,
           source := some "US", language := some "en", domain := none }] ∧
    (mkResult
        { url := some "http://x", sourcecountry := some "US",
          language := some "en" }).source = some "US" := by
  have h := article_field_mapping "MSFT" none 3 25 true 0
    { status_code := 200,
      json := some
        { articles := some
            [{ url := some "http://x", sourcecountry := some "US",
               language := some "en" }] } }
    { articles := some
        [{ url := some "http://x", sourcecountry := some "US",
           language := some "en" }] }
    [{ url := some "http://x", sourcecountry := some "US",
       language := some "en" }]
    (by decide) (by decide) rfl rfl
  refine ⟨by decide, ?_, ?_⟩
  · exact h.1
  · exact ((h.2
      { url := some "http://x", sourcecountry := some "US",
        language := some "en" }).2.2.2.2.2.2.1 rfl).trans rfl

/-- C9: invoked with an empty argument list, `main` prints the usage
examples, returns exit status 1, and performs no network call; with a
non-empty argument list, if the fetch path raises, `main` prints the
single line `Error: <message>` (after any skipped-keyword warning) and
returns exit status 1, and otherwise returns exit status 0 — including
when zero articles are found.  Keyword normalization is total in the
model, so the fetch is the only source of exceptions in the guarded
block. -/
theorem main_exit_codes (argv : List String) (args : ParsedArgs) (now : Int)
    (r : HttpResponse) :
    (argv = [] →
      main_run argv args now r =
        { output := usageOutput, exitCode := 1, networkAttempted := false }) ∧
    (argv ≠ [] →
      (∀ e, fetch_articles args.symbol (some (normalize_keywords args.keywords).1)
          args.days args.limit (!args.allow_non_english) now r =
            Except.error e →
        (main_run argv args now r).output =
          (if (normalize_keywords args.keywords).2 = [] then []
           else [skippedMessage (normalize_keywords args.keywords).2]) ++
            ["Error: " ++ e.message] ∧
        (main_run argv args now r).exitCode = 1) ∧
      (∀ arts,
        fetch_articles args.symbol (some (normalize_keywords args.keywords).1)
          args.days args.limit (!args.allow_non_english) now r =
            Except.ok arts →
        (main_run argv args now r).exitCode = 0)) := by
  constructor
  · intro h
    simp [main_run, h]
  · intro h
    constructor
    · intro e he
      refine ⟨?_, ?_⟩ <;> simp [main_run, h, he]
    · intro arts ha
      simp [main_run, h, ha]

/-- Witness for C9: the empty invocation, an erroring fetch (whitespace
symbol), and a successful fetch with zero articles. -/
theorem main_exit_codes_witness :
    main_run [] { symbol := "MSFT" } 0 { status_code := 200 } =
      { output := usageOutput, exitCode := 1, networkAttempted := false } ∧
    (main_run ["x"] { symbol := " " } 0 { status_code := 200 }).exitCode = 1 ∧
    (main_run ["MSFT"] { symbol := "MSFT" } 0
      { status_code := 200, json := some { articles := none } }).exitCode = 0 := by
  refine ⟨?_, ?_, ?_⟩
  · exact (main_exit_codes [] { symbol := "MSFT" } 0 { status_code := 200 }).1 rfl
  · exact (((main_exit_codes ["x"] { symbol := " " } 0
      { status_code := 200 }).2 (by simp)).1
      (FetchError.invalidInput "A stock symbol or company name is required.")
      rfl).2
  · exact ((main_exit_codes ["MSFT"] { symbol := "MSFT" } 0
      { status_code := 200, json := some { articles := none } }).2
      (by simp)).2 [] rfl
